import Mathlib

/-!
Verification of the s3-batch-delete-objects scripts.

The development embeds the three Python sources:
  * `aws_s3/delete.py`    — class `DeleteS3Objects` with `delete_objects` and
    `delete_object_versions`;
  * `delete_s3_objects.py`  — class `DeleteObjects` (`caller`, `delete`, `check_batch_size`);
  * `restore_s3_objects.py` — class `RestoreObjects` (`caller`, `restore`).

Modelling choices:
  * A file is a list of raw lines, each line as Python file iteration yields it
    (trailing newline kept).  The filesystem is a partial map from path to lines;
    `none` means `open` raises `FileNotFoundError`.
  * The remote S3 service (`Bucket.delete_objects` from boto3) is an oracle
    function from the request's object list to either a `ClientError` or a
    response; the request wraps keys verbatim, so the oracle receives the
    object list itself.
  * Log output is a list of structured entries tagged with the sink
    (the file logger named "file" / the stdout logger named "stdout") and the
    severity; each payload constructor corresponds to one logging statement of
    the source.  `logger.exception` is the `clientErrorDump` payload at error
    severity (the diagnostic traceback is abstracted).
  * The two `while True` loops are modelled by structural recursion on an
    explicit iteration bound; every pass that recurses consumes at least one
    input line, so `lines.length + 1` passes always suffice.
  * `s.replace("\n", "")` removes every newline character, modelled by
    filtering `'\n'` out of the character data.  `s.split(",")` is modelled by
    `splitFields` on the character data, matching Python `str.split` semantics
    (`"".split(",") == [""]`, no collapsing of empty fields).
-/

/-- Model of Python `s.replace("\n", "")`: every newline character is removed
(a raw input line contains at most one, trailing). -/
def stripNewline (s : String) : String :=
  ⟨s.data.filter (fun c => c ≠ '\n')⟩

/-- Split a character list at every comma, Python `str.split(",")` semantics:
the empty string yields one empty field, and empty fields are preserved. -/
def splitFields : List Char → List (List Char)
  | [] => [[]]
  | c :: cs =>
    let rest := splitFields cs
    if c = ',' then [] :: rest
    else
      match rest with
      | [] => [[c]]
      | f :: fs => (c :: f) :: fs

/-- Model of Python `s.split(",")`. -/
def splitCommas (s : String) : List String :=
  (splitFields s.data).map (fun f => ⟨f⟩)

/-- A restore-mode deletion target: the dict
`{"Key": ..., "VersionId": ...}` built by `RestoreObjects.caller`. -/
structure Target where
  key : String
  versionId : String
deriving DecidableEq

/-- One entry of the remote response's `Deleted` or `Errors` list.  The source
reads at most the `Key`, `VersionId` and `Code` fields. -/
structure RespEntry where
  key : String
  versionId : String
  code : String
deriving DecidableEq

/-- The remote response: the `Deleted` and the `Errors` lists, each
independently present (`some`, possibly empty) or absent (`none`),
mirroring Python's `if "Deleted" in response` membership tests. -/
structure DelResponse where
  deleted : Option (List RespEntry)
  errors : Option (List RespEntry)
deriving DecidableEq

/-- A `botocore` `ClientError` raised by the remote call. -/
structure CErr where
  msg : String
deriving DecidableEq

/-- Severity of a log record. -/
inductive Level where
  | info
  | warning
  | error
deriving DecidableEq

/-- Which logger received the record: the file logger `logging.getLogger("file")`
or the stdout logger `logging.getLogger("stdout")`. -/
inductive Sink where
  | file
  | stdout
deriving DecidableEq

/-- Structured log payloads; each constructor models one logging call site of
the source (message formatting abstracted to the interpolated data). -/
inductive Payload where
  /-- `slogger.info("Logging to %s", self.log_file)` -/
  | loggingTo (path : String)
  /-- `logger.info("Bucket: %s", self.bucket)` -/
  | bucketIs (bucket : String)
  /-- `logger.info("Source file: %s", data_file)` -/
  | sourceFileIs (path : String)
  /-- `logger.info("Batch size: %s", batch_size)` -/
  | batchSizeIs (n : Nat)
  /-- `logger.info("Starting deletion...")` / `("Starting restoration...")` -/
  | startMarker
  /-- `logger.info("Deletion complete.")` / `("Restoration complete.")`,
  also mirrored to stdout -/
  | completeMarker
  /-- `logger.info("Deleted objects '%s' ...", sorted([...]))` in
  `delete_objects` -/
  | deletedKeys (keys : List String)
  /-- `logger.warning("Could not delete objects '%s' ...")` in
  `delete_objects`: pairs (key, error code) -/
  | failedKeys (items : List (String × String))
  /-- info entry of `delete_object_versions`: pairs (key, versionId) -/
  | deletedVersions (items : List (String × String))
  /-- warning entry of `delete_object_versions`: triples
  (key, versionId, error code) -/
  | failedVersions (items : List (String × String × String))
  /-- `logger.exception("Couldn't delete any objects from bucket %s.", ...)` -/
  | clientErrorDump (bucket : String)
  /-- `logger.error("File %s was not found!", data_file)` -/
  | fileNotFound (path : String)
deriving DecidableEq

/-- One emitted log record. -/
structure LogEntry where
  sink : Sink
  level : Level
  payload : Payload
deriving DecidableEq

/-- The exception escaping a run: a `ValueError` from argument validation, the
re-raised `FileNotFoundError`, or a propagated `ClientError`. -/
inductive RunError where
  | valueError (arg : String)
  | fileNotFoundErr (path : String)
  | clientError (e : CErr)
deriving DecidableEq

/-- The mutable fields an orchestrator instance holds before `caller` runs:
`self.bucket`, `self.batch_size`, `self.data_file`, all initialised to `None`
in `__init__`. -/
structure OrchState where
  bucket : Option String
  batch_size : Option Nat
  data_file : Option String

/-- Python `sorted` on a list of strings. -/
def sortStrings (l : List String) : List String :=
  List.insertionSort (fun a b => a ≤ b) l

/-- The two conditional log records of `DeleteS3Objects.delete_objects`
(`aws_s3/delete.py`) on a successful remote call: the `if "Deleted" in
response` info entry with the keys sorted, followed by the `if "Errors" in
response` warning entry with each key and its error code. -/
def successLogs (response : DelResponse) : List LogEntry :=
  (match response.deleted with
   | some ds =>
     [⟨Sink.file, Level.info, Payload.deletedKeys (sortStrings (ds.map RespEntry.key))⟩]
   | none => []) ++
  (match response.errors with
   | some es =>
     [⟨Sink.file, Level.warning, Payload.failedKeys (es.map (fun o => (o.key, o.code)))⟩]
   | none => [])

/-- `DeleteS3Objects.delete_objects` (`aws_s3/delete.py`): submits the key list
verbatim (each key wrapped as `{"Key": key}`), emits the conditional success
log records, and on a `ClientError` logs the failure (`logger.exception`) and
re-raises; `else: return response` returns the response unchanged. -/
def delete_objects (remote : List String → Except CErr DelResponse) (bucket : String)
    (object_keys : List String) : List LogEntry × Except CErr DelResponse :=
  match remote object_keys with
  | Except.error e =>
    ([⟨Sink.file, Level.error, Payload.clientErrorDump bucket⟩], Except.error e)
  | Except.ok response => (successLogs response, Except.ok response)

/-- The object list `delete_object_versions` places in the request:
`[{"Key": obj["Key"], "VersionId": obj["VersionId"]} for obj in objects
  if len(obj["VersionId"]) > 0]`. -/
def versionedRequestObjects (objects : List Target) : List Target :=
  objects.filter (fun o => 0 < o.versionId.length)

/-- The two conditional log records of `DeleteS3Objects.delete_object_versions`
(`aws_s3/delete.py`) on a successful remote call: the info entry with each
deleted key and version id, followed by the warning entry with each failed
key, version id and error code. -/
def versionsSuccessLogs (response : DelResponse) : List LogEntry :=
  (match response.deleted with
   | some ds =>
     [⟨Sink.file, Level.info,
       Payload.deletedVersions (ds.map (fun o => (o.key, o.versionId)))⟩]
   | none => []) ++
  (match response.errors with
   | some es =>
     [⟨Sink.file, Level.warning,
       Payload.failedVersions (es.map (fun o => (o.key, o.versionId, o.code)))⟩]
   | none => [])

/-- `DeleteS3Objects.delete_object_versions` continued: the remote call on the
filtered object list, the conditional success log records, the `ClientError`
handler (log then re-raise), and the `else: return response`. -/
def delete_object_versions (remote : List Target → Except CErr DelResponse) (bucket : String)
    (objects : List Target) : List LogEntry × Except CErr DelResponse :=
  match remote (versionedRequestObjects objects) with
  | Except.error e =>
    ([⟨Sink.file, Level.error, Payload.clientErrorDump bucket⟩], Except.error e)
  | Except.ok response => (versionsSuccessLogs response, Except.ok response)

/-- Per-line parse of `RestoreObjects.caller`'s comprehension: a line whose
comma split has exactly two fields becomes
`{"Key": s.split(",")[0], "VersionId": s.split(",")[1].replace("\n", "")}`;
any other line is dropped. -/
def parseRestoreLine (s : String) : Option Target :=
  match splitCommas s with
  | [k, v] => some ⟨k, stripNewline v⟩
  | _ => none

/-- One pass of the `while True` loop of `DeleteObjects.caller`, lines 115-120:
`next_lines = [s.replace("\n", "") for s in list(islice(f, batch_size))]`,
break on empty, recurse on the rest of the file.  The first argument bounds the
number of passes (each recursing pass consumes at least one line). -/
def deleteBatchesGo (n : Nat) : Nat → List String → List (List String)
  | 0, _ => []
  | fuel + 1, lines =>
    if (lines.take n).map stripNewline = [] then []
    else (lines.take n).map stripNewline :: deleteBatchesGo n fuel (lines.drop n)

/-- The groups the delete-mode batch loop submits, for a whole file. -/
def deleteBatches (n : Nat) (lines : List String) : List (List String) :=
  deleteBatchesGo n (lines.length + 1) lines

/-- One iteration of the delete-mode loop applied to the current group `next`
and the outcome `rest` of the remaining iterations: break when the group is
empty, abort (discarding `rest`) when `self._delete` / `delete_objects` raises
a `ClientError`, otherwise prepend this iteration's submission and log records
to `rest`. -/
def deleteLoopStep (remote : List String → Except CErr DelResponse) (bucket : String)
    (next : List String) (rest : List (List String) × List LogEntry × Option CErr) :
    List (List String) × List LogEntry × Option CErr :=
  if next = [] then ([], [], none)
  else
    match delete_objects remote bucket next with
    | (entries, Except.error e) => ([next], entries, some e)
    | (entries, Except.ok _) => (next :: rest.1, entries ++ rest.2.1, rest.2.2)

/-- The delete-mode batch loop together with the remote calls it makes through
`self._delete` / `delete_objects`.  Returns the submitted batches in order, the
log entries, and `some e` when a `ClientError` aborted the loop. -/
def runDeleteLoopGo (remote : List String → Except CErr DelResponse) (bucket : String)
    (n : Nat) : Nat → List String → List (List String) × List LogEntry × Option CErr
  | 0, _ => ([], [], none)
  | fuel + 1, lines =>
    deleteLoopStep remote bucket ((lines.take n).map stripNewline)
      (runDeleteLoopGo remote bucket n fuel (lines.drop n))

/-- The delete-mode batch loop on a whole file. -/
def runDeleteLoop (remote : List String → Except CErr DelResponse) (bucket : String)
    (n : Nat) (lines : List String) : List (List String) × List LogEntry × Option CErr :=
  runDeleteLoopGo remote bucket n (lines.length + 1) lines

/-- One iteration of the `while True` loop of `RestoreObjects.caller`, lines
96-106, applied to the current parsed group `next` (malformed lines already
dropped by the comprehension) and the outcome `rest` of the remaining
iterations: break when the parsed group is empty, abort on a `ClientError`
from `self._restore` / `delete_object_versions`, otherwise prepend this
iteration's submission and log records to `rest`. -/
def restoreLoopStep (remote : List Target → Except CErr DelResponse) (bucket : String)
    (next : List Target) (rest : List (List Target) × List LogEntry × Option CErr) :
    List (List Target) × List LogEntry × Option CErr :=
  if next = [] then ([], [], none)
  else
    match delete_object_versions remote bucket next with
    | (entries, Except.error e) => ([next], entries, some e)
    | (entries, Except.ok _) => (next :: rest.1, entries ++ rest.2.1, rest.2.2)

/-- The restore-mode batch loop: each pass parses the next `islice` group and
applies one `restoreLoopStep`; note the break condition tests the PARSED
group. -/
def runRestoreLoopGo (remote : List Target → Except CErr DelResponse) (bucket : String)
    (n : Nat) : Nat → List String → List (List Target) × List LogEntry × Option CErr
  | 0, _ => ([], [], none)
  | fuel + 1, lines =>
    restoreLoopStep remote bucket ((lines.take n).filterMap parseRestoreLine)
      (runRestoreLoopGo remote bucket n fuel (lines.drop n))

/-- The restore-mode batch loop on a whole file. -/
def runRestoreLoop (remote : List Target → Except CErr DelResponse) (bucket : String)
    (n : Nat) (lines : List String) : List (List Target) × List LogEntry × Option CErr :=
  runRestoreLoopGo remote bucket n (lines.length + 1) lines

/-- The five per-run header records `caller` writes after the source file is
successfully opened: the log-path notice on the stdout sink, then the bucket,
source file, batch size and start marker on the file sink. -/
def headerLogs (bucket data_file : String) (batch_size : Nat) (log_file : String) :
    List LogEntry :=
  [⟨Sink.stdout, Level.info, Payload.loggingTo log_file⟩,
   ⟨Sink.file, Level.info, Payload.bucketIs bucket⟩,
   ⟨Sink.file, Level.info, Payload.sourceFileIs data_file⟩,
   ⟨Sink.file, Level.info, Payload.batchSizeIs batch_size⟩,
   ⟨Sink.file, Level.info, Payload.startMarker⟩]

/-- `DeleteObjects.caller` (`delete_s3_objects.py`): validates the `data_file`
and `bucket` arguments only when the corresponding instance field is still
`None`, opens the LOCAL `data_file` argument, writes the header log records,
runs the batch loop with the LOCAL `batch_size` argument, and writes the
completion marker to both sinks; a missing file is logged at error severity
and re-raised with the filename in the message.  Returns
(submitted batches, log entries, outcome). -/
def deleteCaller (fs : String → Option (List String))
    (remote : List String → Except CErr DelResponse) (st : OrchState)
    (bucket data_file : String) (batch_size : Nat) (log_file : String) :
    List (List String) × List LogEntry × Except RunError Unit :=
  if st.data_file = none ∧ data_file = "" then
    ([], [], Except.error (RunError.valueError "data_file"))
  else if st.bucket = none ∧ bucket = "" then
    ([], [], Except.error (RunError.valueError "bucket"))
  else
    match fs data_file with
    | none =>
      ([], [⟨Sink.file, Level.error, Payload.fileNotFound data_file⟩],
       Except.error (RunError.fileNotFoundErr data_file))
    | some lines =>
      let bucketEff := st.bucket.getD bucket
      match runDeleteLoop remote bucketEff batch_size lines with
      | (subs, logs, some e) =>
        (subs, headerLogs bucketEff data_file batch_size log_file ++ logs,
         Except.error (RunError.clientError e))
      | (subs, logs, none) =>
        (subs,
         headerLogs bucketEff data_file batch_size log_file ++ logs ++
           [⟨Sink.file, Level.info, Payload.completeMarker⟩,
            ⟨Sink.stdout, Level.info, Payload.completeMarker⟩],
         Except.ok ())

/-- `DeleteObjects.caller` invoked on a freshly constructed instance (all three
instance fields `None`), the `__main__` path. -/
def deleteCallerFresh (fs : String → Option (List String))
    (remote : List String → Except CErr DelResponse)
    (bucket data_file : String) (batch_size : Nat) (log_file : String) :
    List (List String) × List LogEntry × Except RunError Unit :=
  deleteCaller fs remote ⟨none, none, none⟩ bucket data_file batch_size log_file

/-- `DeleteObjects.delete`: stores the three arguments into the instance fields
and then invokes `self.caller()` with its DEFAULT arguments
(`bucket=""`, `data_file=""`, `batch_size=1000`). -/
def DeleteObjects.delete (fs : String → Option (List String))
    (remote : List String → Except CErr DelResponse)
    (bucket data_file : String) (batch_size : Nat) (log_file : String) :
    List (List String) × List LogEntry × Except RunError Unit :=
  deleteCaller fs remote ⟨some bucket, some batch_size, some data_file⟩ "" "" 1000 log_file

/-- `RestoreObjects.caller` (`restore_s3_objects.py`): identical control
structure to `DeleteObjects.caller`, with the key+version parse inside the
loop. -/
def restoreCaller (fs : String → Option (List String))
    (remote : List Target → Except CErr DelResponse) (st : OrchState)
    (bucket data_file : String) (batch_size : Nat) (log_file : String) :
    List (List Target) × List LogEntry × Except RunError Unit :=
  if st.data_file = none ∧ data_file = "" then
    ([], [], Except.error (RunError.valueError "data_file"))
  else if st.bucket = none ∧ bucket = "" then
    ([], [], Except.error (RunError.valueError "bucket"))
  else
    match fs data_file with
    | none =>
      ([], [⟨Sink.file, Level.error, Payload.fileNotFound data_file⟩],
       Except.error (RunError.fileNotFoundErr data_file))
    | some lines =>
      let bucketEff := st.bucket.getD bucket
      match runRestoreLoop remote bucketEff batch_size lines with
      | (subs, logs, some e) =>
        (subs, headerLogs bucketEff data_file batch_size log_file ++ logs,
         Except.error (RunError.clientError e))
      | (subs, logs, none) =>
        (subs,
         headerLogs bucketEff data_file batch_size log_file ++ logs ++
           [⟨Sink.file, Level.info, Payload.completeMarker⟩,
            ⟨Sink.stdout, Level.info, Payload.completeMarker⟩],
         Except.ok ())

/-- `RestoreObjects.caller` on a freshly constructed instance. -/
def restoreCallerFresh (fs : String → Option (List String))
    (remote : List Target → Except CErr DelResponse)
    (bucket data_file : String) (batch_size : Nat) (log_file : String) :
    List (List Target) × List LogEntry × Except RunError Unit :=
  restoreCaller fs remote ⟨none, none, none⟩ bucket data_file batch_size log_file

/-- `RestoreObjects.restore`: stores the three arguments into the instance
fields and then invokes `self.caller()` with its default arguments. -/
def RestoreObjects.restore (fs : String → Option (List String))
    (remote : List Target → Except CErr DelResponse)
    (bucket data_file : String) (batch_size : Nat) (log_file : String) :
    List (List Target) × List LogEntry × Except RunError Unit :=
  restoreCaller fs remote ⟨some bucket, some batch_size, some data_file⟩ "" "" 1000 log_file

/-- `check_batch_size` (the `argparse` type callback, identical in both
scripts): rejects a batch size exceeding 1000 with an `ArgumentTypeError`,
returns the value otherwise. -/
def check_batch_size (batch_size : Int) : Except String Int :=
  if batch_size > 1000 then Except.error "Batch size cannot exceed 1000"
  else Except.ok batch_size

theorem stripNewline_sanity : stripNewline "a\n" = "a" := by decide

theorem parseRestoreLine_sanity :
    parseRestoreLine "x,y\n" = some ⟨"x", "y"⟩ ∧
    parseRestoreLine "abc\n" = none ∧
    parseRestoreLine "a,b,c\n" = none ∧
    parseRestoreLine "k,\n" = some ⟨"k", ""⟩ := by decide

theorem deleteBatches_sanity :
    deleteBatches 2 ["a\n", "b\n", "c\n"] = [["a", "b"], ["c"]] := by decide

theorem deleteBatchesGo_nil (n fuel : Nat) : deleteBatchesGo n fuel [] = [] := by
  cases fuel <;> simp [deleteBatchesGo]

theorem deleteBatchesGo_flatten (n : Nat) (hn : 0 < n) :
    ∀ (fuel : Nat) (lines : List String), lines.length < fuel →
      (deleteBatchesGo n fuel lines).flatten = lines.map stripNewline := by
  intro fuel
  induction fuel with
  | zero => intro lines h; exact absurd h (Nat.not_lt_zero _)
  | succ f ih =>
    intro lines hf
    cases lines with
    | nil => simp [deleteBatchesGo]
    | cons x xs =>
      have htake : ((x :: xs).take n).map stripNewline ≠ [] := by
        rw [List.take_cons hn]; simp
      have hlen : ((x :: xs).drop n).length < f := by
        rw [List.length_drop]
        simp only [List.length_cons] at hf ⊢
        omega
      simp only [deleteBatchesGo, if_neg htake]
      rw [List.flatten_cons, ih _ hlen, ← List.map_append, List.take_append_drop]

theorem batch_count_step (n L : Nat) (hn : 0 < n) (hL : 0 < L) :
    (L - n + n - 1) / n + 1 = (L + n - 1) / n := by
  rcases le_or_lt L n with h | h
  · have h1 : L - n + n - 1 = n - 1 := by omega
    have h2 : L + n - 1 = (L - 1) + n := by omega
    rw [h1, h2, Nat.add_div_right _ hn, Nat.div_eq_of_lt (show n - 1 < n by omega),
        Nat.div_eq_of_lt (show L - 1 < n by omega)]
  · have h1 : L - n + n - 1 = L - 1 := by omega
    have h2 : L + n - 1 = (L - 1) + n := by omega
    rw [h1, h2, Nat.add_div_right _ hn]

theorem deleteBatchesGo_length (n : Nat) (hn : 0 < n) :
    ∀ (fuel : Nat) (lines : List String), lines.length < fuel →
      (deleteBatchesGo n fuel lines).length = (lines.length + n - 1) / n := by
  intro fuel
  induction fuel with
  | zero => intro lines h; exact absurd h (Nat.not_lt_zero _)
  | succ f ih =>
    intro lines hf
    cases lines with
    | nil =>
      simp [deleteBatchesGo]
      rw [Nat.div_eq_of_lt (by omega)]
    | cons x xs =>
      have htake : ((x :: xs).take n).map stripNewline ≠ [] := by
        rw [List.take_cons hn]; simp
      have hlen : ((x :: xs).drop n).length < f := by
        rw [List.length_drop]
        simp only [List.length_cons] at hf ⊢
        omega
      simp only [deleteBatchesGo, if_neg htake, List.length_cons]
      rw [ih _ hlen, List.length_drop]
      exact batch_count_step n (x :: xs).length hn (by simp)

theorem deleteBatchesGo_sizes (n : Nat) (hn : 0 < n) :
    ∀ (fuel : Nat) (lines : List String) (b : List String),
      b ∈ deleteBatchesGo n fuel lines → 0 < b.length ∧ b.length ≤ n := by
  intro fuel
  induction fuel with
  | zero => intro lines b hb; simp [deleteBatchesGo] at hb
  | succ f ih =>
    intro lines b hb
    by_cases h : (lines.take n).map stripNewline = []
    · simp only [deleteBatchesGo, if_pos h] at hb
      exact absurd hb (List.not_mem_nil _)
    · simp only [deleteBatchesGo, if_neg h] at hb
      rw [List.mem_cons] at hb
      rcases hb with rfl | hb
      · have hlines : lines ≠ [] := by
          intro he; rw [he] at h; simp at h
        rcases lines with _ | ⟨y, ys⟩
        · exact absurd rfl hlines
        · rw [List.length_map, List.length_take]
          constructor <;> simp <;> omega
      · exact ih _ b hb

theorem deleteBatchesGo_dropLast (n : Nat) (hn : 0 < n) :
    ∀ (fuel : Nat) (lines : List String) (b : List String),
      b ∈ (deleteBatchesGo n fuel lines).dropLast → b.length = n := by
  intro fuel
  induction fuel with
  | zero => intro lines b hb; simp [deleteBatchesGo] at hb
  | succ f ih =>
    intro lines b hb
    by_cases h : (lines.take n).map stripNewline = []
    · simp only [deleteBatchesGo, if_pos h] at hb
      simp at hb
    · simp only [deleteBatchesGo, if_neg h] at hb
      rcases hrec : deleteBatchesGo n f (lines.drop n) with _ | ⟨y, ys⟩
      · rw [hrec] at hb; simp at hb
      · rw [hrec] at hb
        have hb2 : b = (lines.take n).map stripNewline ∨ b ∈ (y :: ys).dropLast := by
          simpa using hb
        rcases hb2 with rfl | hb2
        · have hdrop : lines.drop n ≠ [] := by
            intro hd
            rw [hd, deleteBatchesGo_nil] at hrec
            exact List.noConfusion hrec
          have hlt : n < lines.length := List.length_lt_of_drop_ne_nil hdrop
          rw [List.length_map, List.length_take]
          omega
        · exact ih (lines.drop n) b (by rw [hrec]; exact hb2)


theorem deleteLoopStep_break (remote : List String → Except CErr DelResponse)
    (bucket : String) (rest : List (List String) × List LogEntry × Option CErr) :
    deleteLoopStep remote bucket [] rest = ([], [], none) := rfl

theorem deleteLoopStep_error (remote : List String → Except CErr DelResponse)
    (bucket : String) (nb : List String)
    (rest : List (List String) × List LogEntry × Option CErr) (e0 : CErr)
    (hnb : nb ≠ []) (hc : remote nb = Except.error e0) :
    deleteLoopStep remote bucket nb rest =
      ([nb], [⟨Sink.file, Level.error, Payload.clientErrorDump bucket⟩], some e0) := by
  have hdo : delete_objects remote bucket nb =
      ([⟨Sink.file, Level.error, Payload.clientErrorDump bucket⟩], Except.error e0) := by
    simp [delete_objects, hc]
  simp only [deleteLoopStep]
  rw [if_neg hnb, hdo]

theorem deleteLoopStep_ok (remote : List String → Except CErr DelResponse)
    (bucket : String) (nb : List String)
    (rest : List (List String) × List LogEntry × Option CErr) (r0 : DelResponse)
    (hnb : nb ≠ []) (hc : remote nb = Except.ok r0) :
    deleteLoopStep remote bucket nb rest =
      (nb :: rest.1, successLogs r0 ++ rest.2.1, rest.2.2) := by
  have hdo : delete_objects remote bucket nb = (successLogs r0, Except.ok r0) := by
    simp [delete_objects, hc]
  simp only [deleteLoopStep]
  rw [if_neg hnb, hdo]

theorem successLogs_no_complete (r : DelResponse) :
    ∀ en ∈ successLogs r, en.payload ≠ Payload.completeMarker := by
  intro en hen
  rcases r with ⟨d, er⟩
  rcases d with _ | ds
  · rcases er with _ | es
    · simp [successLogs] at hen
    · simp [successLogs] at hen
      subst hen
      simp
  · rcases er with _ | es
    · simp [successLogs] at hen
      subst hen
      simp
    · simp [successLogs] at hen
      rcases hen with rfl | rfl <;> simp

theorem runDeleteLoopGo_no_complete (remote : List String → Except CErr DelResponse)
    (bucket : String) (n : Nat) :
    ∀ (fuel : Nat) (lines : List String),
      ∀ en ∈ (runDeleteLoopGo remote bucket n fuel lines).2.1,
        en.payload ≠ Payload.completeMarker := by
  intro fuel
  induction fuel with
  | zero => intro lines en hen; simp [runDeleteLoopGo] at hen
  | succ f ih =>
    intro lines en hen
    have hstep : runDeleteLoopGo remote bucket n (f + 1) lines =
        deleteLoopStep remote bucket ((lines.take n).map stripNewline)
          (runDeleteLoopGo remote bucket n f (lines.drop n)) := rfl
    rw [hstep] at hen
    by_cases h : (lines.take n).map stripNewline = []
    · rw [h, deleteLoopStep_break] at hen
      simp at hen
    · rcases hc : remote ((lines.take n).map stripNewline) with e0 | r0
      · rw [deleteLoopStep_error remote bucket _ _ e0 h hc] at hen
        dsimp only at hen
        rw [List.mem_singleton] at hen
        subst hen
        simp
      · rw [deleteLoopStep_ok remote bucket _ _ r0 h hc] at hen
        dsimp only at hen
        rcases List.mem_append.mp hen with hen | hen
        · exact successLogs_no_complete r0 en hen
        · exact ih (lines.drop n) en hen

theorem runDeleteLoopGo_error (remote : List String → Except CErr DelResponse)
    (bucket : String) (n : Nat) :
    ∀ (fuel : Nat) (lines : List String) (b : List String) (e : CErr),
      b ∈ (runDeleteLoopGo remote bucket n fuel lines).1 →
      remote b = Except.error e →
      (runDeleteLoopGo remote bucket n fuel lines).2.2 = some e ∧
      (runDeleteLoopGo remote bucket n fuel lines).1.getLast? = some b ∧
      (⟨Sink.file, Level.error, Payload.clientErrorDump bucket⟩ : LogEntry) ∈
        (runDeleteLoopGo remote bucket n fuel lines).2.1 := by
  intro fuel
  induction fuel with
  | zero => intro lines b e hb _; simp [runDeleteLoopGo] at hb
  | succ f ih =>
    intro lines b e hb hrem
    have hstep : runDeleteLoopGo remote bucket n (f + 1) lines =
        deleteLoopStep remote bucket ((lines.take n).map stripNewline)
          (runDeleteLoopGo remote bucket n f (lines.drop n)) := rfl
    rw [hstep] at hb ⊢
    by_cases h : (lines.take n).map stripNewline = []
    · rw [h, deleteLoopStep_break] at hb
      exact absurd hb (List.not_mem_nil _)
    · rcases hc : remote ((lines.take n).map stripNewline) with e0 | r0
      · rw [deleteLoopStep_error remote bucket _ _ e0 h hc] at hb ⊢
        dsimp only at hb ⊢
        rw [List.mem_singleton] at hb
        subst hb
        rw [hc] at hrem
        have he : e0 = e := by injection hrem
        subst he
        exact ⟨rfl, rfl, List.mem_singleton.mpr rfl⟩
      · rw [deleteLoopStep_ok remote bucket _ _ r0 h hc] at hb ⊢
        dsimp only at hb ⊢
        rw [List.mem_cons] at hb
        rcases hb with rfl | hb
        · rw [hc] at hrem
          exact absurd hrem (by simp)
        · obtain ⟨h1, h2, h3⟩ := ih (lines.drop n) b e hb hrem
          refine ⟨h1, ?_, List.mem_append_right _ h3⟩
          rcases hrecs : (runDeleteLoopGo remote bucket n f (lines.drop n)).1 with _ | ⟨y, ys⟩
          · rw [hrecs] at h2; simp at h2
          · rw [hrecs] at h2
            rw [List.getLast?_cons_cons]
            exact h2

theorem runDeleteLoopGo_subs_ok (remote : List String → Except CErr DelResponse)
    (bucket : String) (n : Nat) (hok : ∀ bk, ∃ r, remote bk = Except.ok r) :
    ∀ (fuel : Nat) (lines : List String),
      (runDeleteLoopGo remote bucket n fuel lines).1 = deleteBatchesGo n fuel lines := by
  intro fuel
  induction fuel with
  | zero => intro lines; rfl
  | succ f ih =>
    intro lines
    have hstep : runDeleteLoopGo remote bucket n (f + 1) lines =
        deleteLoopStep remote bucket ((lines.take n).map stripNewline)
          (runDeleteLoopGo remote bucket n f (lines.drop n)) := rfl
    rw [hstep]
    by_cases h : (lines.take n).map stripNewline = []
    · rw [h, deleteLoopStep_break]
      simp only [deleteBatchesGo]
      rw [if_pos h]
    · obtain ⟨r0, hc⟩ := hok ((lines.take n).map stripNewline)
      rw [deleteLoopStep_ok remote bucket _ _ r0 h hc]
      dsimp only
      rw [ih]
      simp only [deleteBatchesGo]
      rw [if_neg h]

/-- Claim C3 (confirmed): for every input file with L lines and every batch
size n in [1, 1000], the batch reader yields exactly ⌈L/n⌉ = (L + n - 1) / n
groups, all of size n except possibly the last, each line newline-stripped,
and the concatenation of all groups equals the original line sequence in
order. -/
theorem claim_C3_batching_completeness (lines : List String) (n : Nat)
    (h1 : 1 ≤ n) (h2 : n ≤ 1000) :
    (deleteBatches n lines).length = (lines.length + n - 1) / n ∧
    (deleteBatches n lines).flatten = lines.map stripNewline ∧
    (∀ b ∈ (deleteBatches n lines).dropLast, b.length = n) ∧
    (∀ b ∈ deleteBatches n lines, 0 < b.length ∧ b.length ≤ n) :=
  ⟨deleteBatchesGo_length n h1 _ lines (Nat.lt_succ_self _),
   deleteBatchesGo_flatten n h1 _ lines (Nat.lt_succ_self _),
   fun b hb => deleteBatchesGo_dropLast n h1 _ lines b hb,
   fun b hb => deleteBatchesGo_sizes n h1 _ lines b hb⟩

/-- Witness for C3: the file `["a\n", "b\n", "c\n"]` with batch size 2 gives
two groups, the non-final group `["a", "b"]` full and the final group `["c"]`
within bounds. -/
theorem claim_C3_batching_completeness_witness :
    (deleteBatches 2 ["a\n", "b\n", "c\n"]).length =
      ((["a\n", "b\n", "c\n"] : List String).length + 2 - 1) / 2 ∧
    (deleteBatches 2 ["a\n", "b\n", "c\n"]).flatten =
      ["a\n", "b\n", "c\n"].map stripNewline ∧
    (["a", "b"] : List String).length = 2 ∧
    (0 < (["c"] : List String).length ∧ (["c"] : List String).length ≤ 2) :=
  have h := claim_C3_batching_completeness ["a\n", "b\n", "c\n"] 2 (by decide) (by decide)
  ⟨h.1, h.2.1, h.2.2.1 ["a", "b"] (by decide), h.2.2.2 ["c"] (by decide)⟩

/-- Claim C4 (confirmed): in restore mode, a target whose versionId is the
empty string (after the newline stripping the parser performs) is never
included in the object list submitted to the remote delete call. -/
theorem claim_C4_version_filtering (objects : List Target) (o : Target)
    (h : o ∈ versionedRequestObjects objects) : o.versionId ≠ "" := by
  simp only [versionedRequestObjects, List.mem_filter, decide_eq_true_eq] at h
  intro he
  rw [he] at h
  exact absurd h.2 (by decide)

/-- Witness for C4: a target with a non-empty version id is submitted, and its
version id is indeed non-empty; the companion target with the empty version id
is filtered out. -/
theorem claim_C4_version_filtering_witness :
    (⟨"k", "v"⟩ : Target) ∈ versionedRequestObjects [⟨"k", "v"⟩, ⟨"k2", ""⟩] ∧
    (⟨"k", "v"⟩ : Target).versionId ≠ "" :=
  ⟨by decide, claim_C4_version_filtering [⟨"k", "v"⟩, ⟨"k2", ""⟩] ⟨"k", "v"⟩ (by decide)⟩

/-- Claim C5 counterexample: batch size 0 lies outside [1, 1000] yet
`check_batch_size` accepts it, so "a batch size outside [1, 1000] is rejected
during configuration" fails — only the upper bound is validated. -/
theorem claim_C5_counterexample :
    check_batch_size 0 = Except.ok 0 ∧ ¬ (1 ≤ (0 : Int) ∧ (0 : Int) ≤ 1000) := by
  constructor
  · rfl
  · decide

/-- Claim C5 amended (proved): an empty source-file path or an empty bucket on
a fresh instance is rejected before any file access with no log entries
written; batch size 1001 fails argument validation and 1000 succeeds; but the
lower bound is not enforced — every batch size not exceeding 1000 (including
0 and negatives) passes validation. -/
theorem claim_C5_configuration_validation :
    check_batch_size 1001 = Except.error "Batch size cannot exceed 1000" ∧
    check_batch_size 1000 = Except.ok 1000 ∧
    (∀ m : Int, m ≤ 1000 → check_batch_size m = Except.ok m) ∧
    (∀ (fs : String → Option (List String)) (remote : List String → Except CErr DelResponse)
        (bucket : String) (n : Nat) (log_file : String),
        deleteCallerFresh fs remote bucket "" n log_file =
          ([], [], Except.error (RunError.valueError "data_file"))) ∧
    (∀ (fs : String → Option (List String)) (remote : List String → Except CErr DelResponse)
        (data_file : String) (n : Nat) (log_file : String), data_file ≠ "" →
        deleteCallerFresh fs remote "" data_file n log_file =
          ([], [], Except.error (RunError.valueError "bucket"))) := by
  refine ⟨rfl, rfl, ?_, ?_, ?_⟩
  · intro m hm
    rw [check_batch_size, if_neg (by omega)]
  · intro fs remote bucket n log_file
    simp [deleteCallerFresh, deleteCaller]
  · intro fs remote data_file n log_file hdf
    simp [deleteCallerFresh, deleteCaller, hdf]

/-- Witness for C5 amended: concrete instances — 1001 rejected, 1000 and the
out-of-range 0 accepted, and the two `ValueError` paths on a fresh caller. -/
theorem claim_C5_configuration_validation_witness :
    check_batch_size 1001 = Except.error "Batch size cannot exceed 1000" ∧
    check_batch_size 1000 = Except.ok 1000 ∧
    check_batch_size (-5) = Except.ok (-5) ∧
    deleteCallerFresh (fun _ => none) (fun _ => Except.ok ⟨none, none⟩) "bkt" "" 3 "log" =
      ([], [], Except.error (RunError.valueError "data_file")) ∧
    deleteCallerFresh (fun _ => none) (fun _ => Except.ok ⟨none, none⟩) "" "f.txt" 3 "log" =
      ([], [], Except.error (RunError.valueError "bucket")) :=
  have h := claim_C5_configuration_validation
  ⟨h.1, h.2.1, h.2.2.1 (-5) (by decide),
   h.2.2.2.1 (fun _ => none) (fun _ => Except.ok ⟨none, none⟩) "bkt" 3 "log",
   h.2.2.2.2 (fun _ => none) (fun _ => Except.ok ⟨none, none⟩) "f.txt" 3 "log" (by decide)⟩

theorem sortStrings_sorted (l : List String) : (sortStrings l).Sorted (fun a b => a ≤ b) :=
  List.sorted_insertionSort _ l

theorem sortStrings_perm (l : List String) : (sortStrings l).Perm l :=
  List.perm_insertionSort _ l

/-- Claim C6 counterexample: on a response whose `Deleted` list is present but
EMPTY, `delete_objects` still emits the informational entry — the source tests
key presence, not non-emptiness — contradicting "no log entry is emitted for
an empty list". -/
theorem claim_C6_counterexample :
    (delete_objects (fun _ => Except.ok ⟨some [], none⟩) "b" ["k"]).1 =
      [⟨Sink.file, Level.info, Payload.deletedKeys []⟩] := rfl

/-- Claim C6 amended (proved): for every response, `delete_objects` emits
exactly one informational entry (the deleted keys, sorted) when the `Deleted`
list is PRESENT — even when it is empty — and exactly one warning entry (keys
with error codes) when the `Errors` list is PRESENT; no entry is emitted for
an absent list, and the call never fails whichever lists are absent. -/
theorem claim_C6_log_entries (resp : DelResponse) (bucket : String) (keys : List String) :
    ((delete_objects (fun _ => Except.ok resp) bucket keys).1.countP
        (fun en => decide (en.level = Level.info)) =
      if resp.deleted.isSome then 1 else 0) ∧
    ((delete_objects (fun _ => Except.ok resp) bucket keys).1.countP
        (fun en => decide (en.level = Level.warning)) =
      if resp.errors.isSome then 1 else 0) ∧
    (∀ ds, resp.deleted = some ds →
      (⟨Sink.file, Level.info, Payload.deletedKeys (sortStrings (ds.map RespEntry.key))⟩ :
          LogEntry) ∈ (delete_objects (fun _ => Except.ok resp) bucket keys).1 ∧
      (sortStrings (ds.map RespEntry.key)).Sorted (fun a b => a ≤ b) ∧
      (sortStrings (ds.map RespEntry.key)).Perm (ds.map RespEntry.key)) ∧
    (∀ es, resp.errors = some es →
      (⟨Sink.file, Level.warning, Payload.failedKeys (es.map (fun o => (o.key, o.code)))⟩ :
          LogEntry) ∈ (delete_objects (fun _ => Except.ok resp) bucket keys).1) ∧
    (delete_objects (fun _ => Except.ok resp) bucket keys).2 = Except.ok resp := by
  refine ⟨?_, ?_, ?_, ?_, ?_⟩
  · rcases resp with ⟨d, er⟩
    rcases d with _ | ds <;> rcases er with _ | es <;>
      simp [delete_objects, successLogs, List.countP_cons, List.countP_nil]
  · rcases resp with ⟨d, er⟩
    rcases d with _ | ds <;> rcases er with _ | es <;>
      simp [delete_objects, successLogs, List.countP_cons, List.countP_nil]
  · intro ds hds
    refine ⟨?_, sortStrings_sorted _, sortStrings_perm _⟩
    simp [delete_objects, successLogs, hds]
  · intro es hes
    simp [delete_objects, successLogs, hes]
  · simp [delete_objects]

/-- Witness for C6 amended: a response with both lists present — two deleted
entries and one failed entry — yields one info entry with the sorted keys and
one warning entry, and the response is returned unchanged. -/
theorem claim_C6_log_entries_witness :
    ((delete_objects
        (fun _ => Except.ok ⟨some [⟨"k2", "", ""⟩, ⟨"k1", "", ""⟩], some [⟨"k3", "", "AccessDenied"⟩]⟩)
        "b" ["k1", "k2", "k3"]).1.countP (fun en => decide (en.level = Level.info)) = 1) ∧
    ((delete_objects
        (fun _ => Except.ok ⟨some [⟨"k2", "", ""⟩, ⟨"k1", "", ""⟩], some [⟨"k3", "", "AccessDenied"⟩]⟩)
        "b" ["k1", "k2", "k3"]).1.countP (fun en => decide (en.level = Level.warning)) = 1) ∧
    (⟨Sink.file, Level.info,
        Payload.deletedKeys (sortStrings (([⟨"k2", "", ""⟩, ⟨"k1", "", ""⟩] : List RespEntry).map RespEntry.key))⟩ :
        LogEntry) ∈
      (delete_objects
        (fun _ => Except.ok ⟨some [⟨"k2", "", ""⟩, ⟨"k1", "", ""⟩], some [⟨"k3", "", "AccessDenied"⟩]⟩)
        "b" ["k1", "k2", "k3"]).1 ∧
    (sortStrings (([⟨"k2", "", ""⟩, ⟨"k1", "", ""⟩] : List RespEntry).map RespEntry.key)).Sorted
      (fun a b => a ≤ b) ∧
    (sortStrings (([⟨"k2", "", ""⟩, ⟨"k1", "", ""⟩] : List RespEntry).map RespEntry.key)).Perm
      (([⟨"k2", "", ""⟩, ⟨"k1", "", ""⟩] : List RespEntry).map RespEntry.key) ∧
    (⟨Sink.file, Level.warning,
        Payload.failedKeys (([⟨"k3", "", "AccessDenied"⟩] : List RespEntry).map (fun o => (o.key, o.code)))⟩ :
        LogEntry) ∈
      (delete_objects
        (fun _ => Except.ok ⟨some [⟨"k2", "", ""⟩, ⟨"k1", "", ""⟩], some [⟨"k3", "", "AccessDenied"⟩]⟩)
        "b" ["k1", "k2", "k3"]).1 ∧
    (delete_objects
        (fun _ => Except.ok ⟨some [⟨"k2", "", ""⟩, ⟨"k1", "", ""⟩], some [⟨"k3", "", "AccessDenied"⟩]⟩)
        "b" ["k1", "k2", "k3"]).2 =
      Except.ok ⟨some [⟨"k2", "", ""⟩, ⟨"k1", "", ""⟩], some [⟨"k3", "", "AccessDenied"⟩]⟩ :=
  have h := claim_C6_log_entries
    ⟨some [⟨"k2", "", ""⟩, ⟨"k1", "", ""⟩], some [⟨"k3", "", "AccessDenied"⟩]⟩ "b" ["k1", "k2", "k3"]
  have hd := h.2.2.1 [⟨"k2", "", ""⟩, ⟨"k1", "", ""⟩] rfl
  ⟨h.1, h.2.1, hd.1, hd.2.1, hd.2.2, h.2.2.2.1 [⟨"k3", "", "AccessDenied"⟩] rfl, h.2.2.2.2⟩

/-- Claim C10 (confirmed): whenever the remote call returns a response without
raising, `delete_objects` and `delete_object_versions` return that response
unchanged, whatever combination of lists it contains. -/
theorem claim_C10_response_passthrough :
    (∀ (remote : List String → Except CErr DelResponse) (bucket : String)
        (keys : List String) (resp : DelResponse),
        remote keys = Except.ok resp →
        (delete_objects remote bucket keys).2 = Except.ok resp) ∧
    (∀ (remote : List Target → Except CErr DelResponse) (bucket : String)
        (objects : List Target) (resp : DelResponse),
        remote (versionedRequestObjects objects) = Except.ok resp →
        (delete_object_versions remote bucket objects).2 = Except.ok resp) := by
  constructor
  · intro remote bucket keys resp h
    simp [delete_objects, h]
  · intro remote bucket objects resp h
    simp [delete_object_versions, h]

/-- Witness for C10: two concrete successful calls, one per method, each
returning the oracle's response unchanged. -/
theorem claim_C10_response_passthrough_witness :
    (delete_objects (fun _ => Except.ok ⟨some [⟨"a", "", "c"⟩], none⟩) "b" ["k"]).2 =
      Except.ok ⟨some [⟨"a", "", "c"⟩], none⟩ ∧
    (delete_object_versions (fun _ => Except.ok ⟨none, some []⟩) "b" [⟨"k", "v"⟩]).2 =
      Except.ok ⟨none, some []⟩ :=
  ⟨claim_C10_response_passthrough.1 _ "b" ["k"] _ rfl,
   claim_C10_response_passthrough.2 _ "b" [⟨"k", "v"⟩] _ rfl⟩

theorem headerLogs_no_complete (bucket data_file : String) (n : Nat) (log_file : String) :
    ∀ en ∈ headerLogs bucket data_file n log_file, en.payload ≠ Payload.completeMarker := by
  intro en hen
  simp [headerLogs] at hen
  rcases hen with rfl | rfl | rfl | rfl | rfl <;> simp

theorem runDeleteLoop_error (remote : List String → Except CErr DelResponse)
    (bucket : String) (n : Nat) (lines : List String) (b : List String) (e : CErr)
    (hb : b ∈ (runDeleteLoop remote bucket n lines).1)
    (hrem : remote b = Except.error e) :
    (runDeleteLoop remote bucket n lines).2.2 = some e ∧
    (runDeleteLoop remote bucket n lines).1.getLast? = some b ∧
    (⟨Sink.file, Level.error, Payload.clientErrorDump bucket⟩ : LogEntry) ∈
      (runDeleteLoop remote bucket n lines).2.1 :=
  runDeleteLoopGo_error remote bucket n (lines.length + 1) lines b e hb hrem

theorem runDeleteLoop_no_complete (remote : List String → Except CErr DelResponse)
    (bucket : String) (n : Nat) (lines : List String) :
    ∀ en ∈ (runDeleteLoop remote bucket n lines).2.1,
      en.payload ≠ Payload.completeMarker :=
  runDeleteLoopGo_no_complete remote bucket n (lines.length + 1) lines

theorem deleteCallerFresh_open (fs : String → Option (List String))
    (remote : List String → Except CErr DelResponse) (bucket data_file : String)
    (n : Nat) (log_file : String) (lines : List String)
    (hdf : data_file ≠ "") (hbk : bucket ≠ "") (hfs : fs data_file = some lines) :
    deleteCallerFresh fs remote bucket data_file n log_file =
      match runDeleteLoop remote bucket n lines with
      | (subs, logs, some e0) =>
        (subs, headerLogs bucket data_file n log_file ++ logs,
         Except.error (RunError.clientError e0))
      | (subs, logs, none) =>
        (subs,
         headerLogs bucket data_file n log_file ++ logs ++
           [⟨Sink.file, Level.info, Payload.completeMarker⟩,
            ⟨Sink.stdout, Level.info, Payload.completeMarker⟩],
         Except.ok ()) := by
  simp only [deleteCallerFresh, deleteCaller]
  rw [if_neg (by simp [hdf])]
  rw [if_neg (by simp [hbk])]
  rw [hfs]
  rfl

/-- Claim C7 (confirmed): if the remote delete call itself fails on some
submitted batch, the client logs the failure at error severity, the SAME
`ClientError` escapes the run, the failing batch is the last one submitted
(no further batch is processed), and no "complete" marker is written to
either log sink. -/
theorem claim_C7_remote_failure_fatal (fs : String → Option (List String))
    (remote : List String → Except CErr DelResponse) (bucket data_file : String)
    (n : Nat) (log_file : String) (lines : List String) (b : List String) (e : CErr)
    (hdf : data_file ≠ "") (hbk : bucket ≠ "")
    (hfs : fs data_file = some lines)
    (hb : b ∈ (deleteCallerFresh fs remote bucket data_file n log_file).1)
    (hrem : remote b = Except.error e) :
    (deleteCallerFresh fs remote bucket data_file n log_file).2.2 =
      Except.error (RunError.clientError e) ∧
    (deleteCallerFresh fs remote bucket data_file n log_file).1.getLast? = some b ∧
    (⟨Sink.file, Level.error, Payload.clientErrorDump bucket⟩ : LogEntry) ∈
      (deleteCallerFresh fs remote bucket data_file n log_file).2.1 ∧
    ∀ en ∈ (deleteCallerFresh fs remote bucket data_file n log_file).2.1,
      en.payload ≠ Payload.completeMarker := by
  rw [deleteCallerFresh_open fs remote bucket data_file n log_file lines hdf hbk hfs] at hb ⊢
  rcases hrun : runDeleteLoop remote bucket n lines with ⟨subs, logs, err⟩
  rw [hrun] at hb
  rcases err with _ | e0
  · dsimp only at hb
    have hbloop : b ∈ (runDeleteLoop remote bucket n lines).1 := by
      rw [hrun]; exact hb
    obtain ⟨hsome, -, -⟩ := runDeleteLoop_error remote bucket n lines b e hbloop hrem
    rw [hrun] at hsome
    exact absurd hsome (by simp)
  · dsimp only at hb ⊢
    have hbloop : b ∈ (runDeleteLoop remote bucket n lines).1 := by
      rw [hrun]; exact hb
    obtain ⟨hsome, hlast, hdump⟩ := runDeleteLoop_error remote bucket n lines b e hbloop hrem
    rw [hrun] at hsome hlast hdump
    dsimp only at hsome hlast hdump
    have he : e0 = e := by injection hsome
    subst he
    refine ⟨rfl, hlast, List.mem_append_right _ hdump, ?_⟩
    intro en hen
    rcases List.mem_append.mp hen with h5 | h5
    · exact headerLogs_no_complete bucket data_file n log_file en h5
    · have hloop : en ∈ (runDeleteLoop remote bucket n lines).2.1 := by
        rw [hrun]; exact h5
      exact runDeleteLoop_no_complete remote bucket n lines en hloop

/-- Witness for C7: a one-line file whose single batch `["a"]` hits an
always-failing remote; the error escapes, the batch is the last (and only)
submission, the exception entry is logged, and no complete marker appears. -/
theorem claim_C7_remote_failure_fatal_witness :
    (deleteCallerFresh (fun _ => some ["a\n"]) (fun _ => Except.error ⟨"boom"⟩)
        "b" "f" 1 "log").2.2 = Except.error (RunError.clientError ⟨"boom"⟩) ∧
    (deleteCallerFresh (fun _ => some ["a\n"]) (fun _ => Except.error ⟨"boom"⟩)
        "b" "f" 1 "log").1.getLast? = some ["a"] ∧
    (⟨Sink.file, Level.error, Payload.clientErrorDump "b"⟩ : LogEntry) ∈
      (deleteCallerFresh (fun _ => some ["a\n"]) (fun _ => Except.error ⟨"boom"⟩)
        "b" "f" 1 "log").2.1 ∧
    (⟨Sink.file, Level.info, Payload.completeMarker⟩ : LogEntry) ∉
      (deleteCallerFresh (fun _ => some ["a\n"]) (fun _ => Except.error ⟨"boom"⟩)
        "b" "f" 1 "log").2.1 :=
  have h := claim_C7_remote_failure_fatal (fun _ => some ["a\n"])
    (fun _ => Except.error ⟨"boom"⟩) "b" "f" 1 "log" ["a\n"] ["a"] ⟨"boom"⟩
    (by decide) (by decide) rfl (by decide) rfl
  ⟨h.1, h.2.1, h.2.2.1, fun hmem => h.2.2.2 _ hmem rfl⟩

/-- Claim C8 (confirmed): when the source file does not exist, both runs fail
before any batch is read — no remote call is made, the missing file is logged
at error severity, the exception re-raised carries the filename, and no
complete marker is logged (the single error entry is the whole log). -/
theorem claim_C8_missing_file (fs : String → Option (List String))
    (remote : List String → Except CErr DelResponse)
    (rremote : List Target → Except CErr DelResponse) (bucket data_file : String)
    (n : Nat) (log_file : String)
    (hdf : data_file ≠ "") (hbk : bucket ≠ "") (hfs : fs data_file = none) :
    deleteCallerFresh fs remote bucket data_file n log_file =
      ([], [⟨Sink.file, Level.error, Payload.fileNotFound data_file⟩],
       Except.error (RunError.fileNotFoundErr data_file)) ∧
    restoreCallerFresh fs rremote bucket data_file n log_file =
      ([], [⟨Sink.file, Level.error, Payload.fileNotFound data_file⟩],
       Except.error (RunError.fileNotFoundErr data_file)) := by
  constructor
  · simp [deleteCallerFresh, deleteCaller, hdf, hbk, hfs]
  · simp [restoreCallerFresh, restoreCaller, hdf, hbk, hfs]

/-- Witness for C8: a filesystem with no files at all makes both runs fail
with exactly the missing-file error entry and exception. -/
theorem claim_C8_missing_file_witness :
    deleteCallerFresh (fun _ => none) (fun _ => Except.ok ⟨none, none⟩)
        "b" "missing.txt" 1 "log" =
      ([], [⟨Sink.file, Level.error, Payload.fileNotFound "missing.txt"⟩],
       Except.error (RunError.fileNotFoundErr "missing.txt")) ∧
    restoreCallerFresh (fun _ => none) (fun _ => Except.ok ⟨none, none⟩)
        "b" "missing.txt" 1 "log" =
      ([], [⟨Sink.file, Level.error, Payload.fileNotFound "missing.txt"⟩],
       Except.error (RunError.fileNotFoundErr "missing.txt")) :=
  claim_C8_missing_file (fun _ => none) (fun _ => Except.ok ⟨none, none⟩)
    (fun _ => Except.ok ⟨none, none⟩) "b" "missing.txt" 1 "log"
    (by decide) (by decide) rfl

/-- Claim C9 (confirmed): in plain-key mode every raw line is passed through
verbatim as an object key after newline stripping, with no further
validation: when the remote succeeds on every batch, the batches submitted
are exactly the stripped line groups, their concatenation is the stripped
line sequence, and every line — including one stripping to the empty
string — appears among the submitted keys. -/
theorem claim_C9_plain_key_verbatim (remote : List String → Except CErr DelResponse)
    (bucket : String) (n : Nat) (lines : List String)
    (hn : 1 ≤ n) (hok : ∀ bk, ∃ r, remote bk = Except.ok r) :
    (runDeleteLoop remote bucket n lines).1 = deleteBatches n lines ∧
    ((runDeleteLoop remote bucket n lines).1).flatten = lines.map stripNewline ∧
    ∀ s ∈ lines, stripNewline s ∈ ((runDeleteLoop remote bucket n lines).1).flatten := by
  have h1 : (runDeleteLoop remote bucket n lines).1 = deleteBatches n lines :=
    runDeleteLoopGo_subs_ok remote bucket n hok (lines.length + 1) lines
  have h2 : ((runDeleteLoop remote bucket n lines).1).flatten = lines.map stripNewline := by
    rw [h1]
    exact deleteBatchesGo_flatten n hn (lines.length + 1) lines (Nat.lt_succ_self _)
  refine ⟨h1, h2, ?_⟩
  intro s hs
  rw [h2]
  exact List.mem_map_of_mem _ hs

/-- Witness for C9: the file `["\n", "a\n"]` with batch size 1 — the first
line strips to the empty string and is still submitted as an empty-string
key. -/
theorem claim_C9_plain_key_verbatim_witness :
    (runDeleteLoop (fun _ => Except.ok ⟨none, none⟩) "b" 1 ["\n", "a\n"]).1 =
      deleteBatches 1 ["\n", "a\n"] ∧
    ((runDeleteLoop (fun _ => Except.ok ⟨none, none⟩) "b" 1 ["\n", "a\n"]).1).flatten =
      ["\n", "a\n"].map stripNewline ∧
    stripNewline "\n" ∈
      ((runDeleteLoop (fun _ => Except.ok ⟨none, none⟩) "b" 1 ["\n", "a\n"]).1).flatten :=
  have h := claim_C9_plain_key_verbatim (fun _ => Except.ok ⟨none, none⟩) "b" 1
    ["\n", "a\n"] (by decide) (fun bk => ⟨⟨none, none⟩, rfl⟩)
  ⟨h.1, h.2.1, h.2.2 "\n" (by decide)⟩

/-- Claim C1 (code bug): the restore loop's break condition tests the PARSED
group, so a fetched batch consisting only of malformed lines terminates the
run early.  With batch size 1 and the file `["abc\n", "x,y\n"]`, the first
batch parses to the empty target list and the loop breaks: the well-formed
line `"x,y"` — which parses to the target ("x", "y") — is submitted in NO
batch, yet the run logs the complete markers and finishes without error,
contradicting "terminates only when the input source is exhausted" and "every
raw line that splits on a comma into exactly two fields is included in some
batch". -/
theorem claim_C1_restore_early_break :
    parseRestoreLine "x,y\n" = some ⟨"x", "y"⟩ ∧
    restoreCallerFresh (fun p => if p = "data.txt" then some ["abc\n", "x,y\n"] else none)
        (fun _ => Except.ok ⟨none, none⟩) "bkt" "data.txt" 1 "log" =
      ([],
       [⟨Sink.stdout, Level.info, Payload.loggingTo "log"⟩,
        ⟨Sink.file, Level.info, Payload.bucketIs "bkt"⟩,
        ⟨Sink.file, Level.info, Payload.sourceFileIs "data.txt"⟩,
        ⟨Sink.file, Level.info, Payload.batchSizeIs 1⟩,
        ⟨Sink.file, Level.info, Payload.startMarker⟩,
        ⟨Sink.file, Level.info, Payload.completeMarker⟩,
        ⟨Sink.stdout, Level.info, Payload.completeMarker⟩],
       Except.ok ()) :=
  ⟨rfl, rfl⟩

/-- Claim C2 (code bug): `DeleteObjects.delete` stores the bucket, batch size
and source file into the instance fields, but then invokes `self.caller()`
with caller's DEFAULT arguments, and `caller` opens its LOCAL `data_file`
argument (the empty string) and batches with its LOCAL `batch_size` (1000).
Invoking `delete` on bucket "bkt", existing file "keys.txt" and batch size 2
therefore never reads "keys.txt": it tries to open `""`, logs `File  was not
found!` and raises `FileNotFoundError`, submitting no batch at all.
`RestoreObjects.restore` fails identically. -/
theorem claim_C2_entry_point_ignores_config :
    DeleteObjects.delete
        (fun p => if p = "keys.txt" then some ["a\n", "b\n", "c\n"] else none)
        (fun _ => Except.ok ⟨none, none⟩) "bkt" "keys.txt" 2 "log" =
      ([], [⟨Sink.file, Level.error, Payload.fileNotFound ""⟩],
       Except.error (RunError.fileNotFoundErr "")) ∧
    RestoreObjects.restore
        (fun p => if p = "keys.txt" then some ["a,v\n"] else none)
        (fun _ => Except.ok ⟨none, none⟩) "bkt" "keys.txt" 2 "log" =
      ([], [⟨Sink.file, Level.error, Payload.fileNotFound ""⟩],
       Except.error (RunError.fileNotFoundErr "")) :=
  ⟨rfl, rfl⟩
